import Mathlib

/-!
Shallow embedding of the `errorkit` Go package (`errorkit.go`) and proofs of
its specified properties.

Modelling conventions:
* A Go `error` is `Err := Option String`: `none` is the nil error, `some m`
  is a non-nil error whose `Error()` text is `m`.
* A Go computation that may panic is modelled by its outcome, `Exec α`:
  either a normal return `Exec.ret v` or an abnormal termination
  `Exec.panic r` carrying the value that `recover()` would yield.
* A recovered panic payload (`interface{}`) is `GoAny`: `GoAny.nil` is the
  nil interface value, `GoAny.val s` is a non-nil value whose `%v`
  rendering is `s`.
* `debug.Stack()` is runtime-environment data; wrappers take the captured
  stack-trace text as an explicit `stack : String` parameter.
* Go zero values of a generic type `T` are `(default : T)` via `Inhabited`.
* `fmt.Sprintf` is modelled over argument values `GoVal` (strings and
  integers) with the verbs `%s`, `%d`, `%v`, `%%` and Go's `MISSING`,
  `NOVERB`, `EXTRA` and bad-verb behaviours.
* Handler callbacks are `String → Exec Unit`: invoked with the message of a
  non-nil error, they either return or panic.  Handler variants return,
  besides their outcome, the list of arguments the callback was invoked
  with, in order, so that "invoked exactly once" is expressible.
-/

namespace Errorkit

/-- A Go `error` value: `none` is nil, `some m` has message `m`. -/
abbrev Err := Option String

/-- An argument value passed to `fmt.Sprintf` (`...any` restricted to the
string and integer values the development needs). -/
inductive GoVal where
  | str : String → GoVal
  | int : Int → GoVal
deriving DecidableEq

/-- Go reflect type name, as printed in `%!verb(type=value)` and `EXTRA`. -/
def GoVal.typeName : GoVal → String
  | .str _ => "string"
  | .int _ => "int"

/-- The `%v` rendering of an argument value. -/
def GoVal.vText : GoVal → String
  | .str s => s
  | .int n => toString n

/-- Rendering of one verb applied to one argument, as `fmt` does it:
`%s` on a string and `%d` on an integer substitute the value, `%v` always
substitutes, and a mismatched or unknown verb prints
`%!c(type=value)`. -/
def formatVerb (c : Char) (v : GoVal) : String :=
  match c, v with
  | 's', .str s => s
  | 'd', .int n => toString n
  | 'v', v => v.vText
  | c, v => "%!" ++ c.toString ++ "(" ++ v.typeName ++ "=" ++ v.vText ++ ")"

/-- The `type=value` list inside `%!(EXTRA ...)`. -/
def extrasText : List GoVal → String
  | [] => ""
  | [v] => v.typeName ++ "=" ++ v.vText
  | v :: rest => v.typeName ++ "=" ++ v.vText ++ ", " ++ extrasText rest

/-- Core loop of `fmt.Sprintf`: copies literal characters, substitutes
verbs left to right, and emits Go's diagnostics — `%!verb(MISSING)` when
the arguments run out, `%!(NOVERB)` for a trailing `%`, and
`%!(EXTRA type=value, ...)` for leftover arguments. -/
def sprintfAux : List Char → List GoVal → String
  | [], [] => ""
  | [], v :: vs => "%!(EXTRA " ++ extrasText (v :: vs) ++ ")"
  | ['%'], args => "%!(NOVERB)" ++ sprintfAux [] args
  | '%' :: '%' :: rest, args => "%" ++ sprintfAux rest args
  | '%' :: c :: rest, [] => "%!" ++ c.toString ++ "(MISSING)" ++ sprintfAux rest []
  | '%' :: c :: rest, v :: vs => formatVerb c v ++ sprintfAux rest vs
  | c :: rest, args => c.toString ++ sprintfAux rest args

/-- `fmt.Sprintf(format, args...)`. -/
def sprintf (format : String) (args : List GoVal) : String :=
  sprintfAux format.toList args

/-- `Validate(condition, format, args...)` from `errorkit.go`: on a false
condition it returns `fmt.Errorf(fmt.Sprintf(format, args...))` — note the
formatted text is itself used as a format string, with no arguments. -/
def Validate (condition : Bool) (format : String) (args : List GoVal) : Err :=
  if !condition then
    some (sprintf (sprintf format args) [])
  else
    none

/-- A recovered panic payload: the nil interface value, or a non-nil value
whose `%v` rendering is the carried string. -/
inductive GoAny where
  | nil : GoAny
  | val : String → GoAny
deriving DecidableEq

/-- The `%v` rendering of a recovered payload. -/
def GoAny.vText : GoAny → String
  | .nil => "<nil>"
  | .val s => s

/-- Outcome of running a Go computation: a normal return carrying the
returned value(s), or a panic carrying the payload `recover()` yields. -/
inductive Exec (α : Type) where
  | ret : α → Exec α
  | panic : GoAny → Exec α
deriving DecidableEq

/-- Whether the computation terminated abnormally. -/
def Exec.panics {α : Type} : Exec α → Bool
  | .ret _ => false
  | .panic _ => true

/-- The value of a normal return, or the fallback on a panic. -/
def Exec.retD {α : Type} : Exec α → α → α
  | .ret a, _ => a
  | .panic _, d => d

/-- Message of the error built in `SafeExec`'s deferred recover:
`fmt.Errorf("panic occurred: %v\nStack trace:\n%s", r, debug.Stack())`. -/
def panicMsg (r : GoAny) (stack : String) : String :=
  "panic occurred: " ++ r.vText ++ "\nStack trace:\n" ++ stack

/-- `SafeExec(fn)` including its own termination behaviour.  On a normal
return of `fn` the deferred `recover()` yields nil and `err` is `fn`'s
error.  On a panic, `return fn()` never assigns `err` (it keeps its zero
value nil); the deferred function recovers — stopping the unwinding — and
overwrites `err` only when the recovered value is non-nil.  Every branch is
a normal return. -/
def SafeExecE (stack : String) (fn : Exec Err) : Exec Err :=
  match fn with
  | .ret e => .ret e
  | .panic r => .ret (if r = GoAny.nil then none else some (panicMsg r stack))

/-- The error value `SafeExec(fn)` returns. -/
def SafeExec (stack : String) (fn : Exec Err) : Err :=
  (SafeExecE stack fn).retD none

/-- Inner closure built by `SafeExecWithNoResult`: runs `fn`, then returns
nil; a panic in `fn` escapes the closure. -/
def innerNoResult (fn : Exec Unit) : Exec Err :=
  match fn with
  | .ret _ => .ret none
  | .panic r => .panic r

/-- `SafeExecWithNoResult(fn)`. -/
def SafeExecWithNoResult (stack : String) (fn : Exec Unit) : Err :=
  SafeExec stack (innerNoResult fn)

/-- Inner closure built by `SafeExecWithResult`: it assigns the captured
`result` slot on a normal return of `fn` and returns `fn`'s error; on a
panic the slot keeps its zero value and the panic escapes.  Yields the
closure's outcome together with the slot's final contents. -/
def innerWithResult {T : Type} [Inhabited T] (fn : Exec (T × Err)) :
    Exec Err × T :=
  match fn with
  | .ret (v, e) => (.ret e, v)
  | .panic r => (.panic r, default)

/-- `SafeExecWithResult(fn)`. -/
def SafeExecWithResult {T : Type} [Inhabited T] (stack : String)
    (fn : Exec (T × Err)) : T × Err :=
  ((innerWithResult fn).2, SafeExec stack (innerWithResult fn).1)

/-- Inner closure built by `SafeExecWithTwoResults` (two captured slots). -/
def innerWithTwoResults {T1 T2 : Type} [Inhabited T1] [Inhabited T2]
    (fn : Exec (T1 × T2 × Err)) : Exec Err × T1 × T2 :=
  match fn with
  | .ret (v1, v2, e) => (.ret e, v1, v2)
  | .panic r => (.panic r, default, default)

/-- `SafeExecWithTwoResults(fn)`. -/
def SafeExecWithTwoResults {T1 T2 : Type} [Inhabited T1] [Inhabited T2]
    (stack : String) (fn : Exec (T1 × T2 × Err)) : T1 × T2 × Err :=
  ((innerWithTwoResults fn).2.1, (innerWithTwoResults fn).2.2,
    SafeExec stack (innerWithTwoResults fn).1)

/-- Inner closure built by `SafeExecWithThreeResults` (three captured
slots). -/
def innerWithThreeResults {T1 T2 T3 : Type}
    [Inhabited T1] [Inhabited T2] [Inhabited T3]
    (fn : Exec (T1 × T2 × T3 × Err)) : Exec Err × T1 × T2 × T3 :=
  match fn with
  | .ret (v1, v2, v3, e) => (.ret e, v1, v2, v3)
  | .panic r => (.panic r, default, default, default)

/-- `SafeExecWithThreeResults(fn)`. -/
def SafeExecWithThreeResults {T1 T2 T3 : Type}
    [Inhabited T1] [Inhabited T2] [Inhabited T3]
    (stack : String) (fn : Exec (T1 × T2 × T3 × Err)) : T1 × T2 × T3 × Err :=
  ((innerWithThreeResults fn).2.1, (innerWithThreeResults fn).2.2.1,
    (innerWithThreeResults fn).2.2.2, SafeExec stack (innerWithThreeResults fn).1)

/-- `SafeExecWithHandler(fn, handler)`: runs `SafeExec(fn)`, invokes the
handler on a non-nil error.  The first component is the call's own outcome
(the handler may panic, unprotected); the second lists the arguments the
handler was invoked with. -/
def SafeExecWithHandler (stack : String) (fn : Exec Err)
    (handler : String → Exec Unit) : Exec Unit × List String :=
  match SafeExec stack fn with
  | some e => (handler e, [e])
  | none => (.ret (), [])

/-- `SafeExecWithHandler0(fn, handler)`. -/
def SafeExecWithHandler0 (stack : String) (fn : Exec Unit)
    (handler : String → Exec Unit) : Exec Unit × List String :=
  match SafeExecWithNoResult stack fn with
  | some e => (handler e, [e])
  | none => (.ret (), [])

/-- `SafeExecWithHandlerWithResult(fn, handler)`: the typed result from
`SafeExecWithResult` is returned whether or not the handler ran; a panic
in the handler escapes before the return. -/
def SafeExecWithHandlerWithResult {T : Type} [Inhabited T] (stack : String)
    (fn : Exec (T × Err)) (handler : String → Exec Unit) :
    Exec T × List String :=
  match (SafeExecWithResult stack fn).2 with
  | some e =>
    (match handler e with
     | .ret _ => .ret (SafeExecWithResult stack fn).1
     | .panic r => .panic r, [e])
  | none => (.ret (SafeExecWithResult stack fn).1, [])

/-- `SafeExecWithHandlerWithTwoResults(fn, handler)`. -/
def SafeExecWithHandlerWithTwoResults {T1 T2 : Type}
    [Inhabited T1] [Inhabited T2] (stack : String)
    (fn : Exec (T1 × T2 × Err)) (handler : String → Exec Unit) :
    Exec (T1 × T2) × List String :=
  match (SafeExecWithTwoResults stack fn).2.2 with
  | some e =>
    (match handler e with
     | .ret _ =>
       .ret ((SafeExecWithTwoResults stack fn).1,
         (SafeExecWithTwoResults stack fn).2.1)
     | .panic r => .panic r, [e])
  | none =>
    (.ret ((SafeExecWithTwoResults stack fn).1,
      (SafeExecWithTwoResults stack fn).2.1), [])

/-- `SafeExecWithHandlerWithThreeResults(fn, handler)`. -/
def SafeExecWithHandlerWithThreeResults {T1 T2 T3 : Type}
    [Inhabited T1] [Inhabited T2] [Inhabited T3] (stack : String)
    (fn : Exec (T1 × T2 × T3 × Err)) (handler : String → Exec Unit) :
    Exec (T1 × T2 × T3) × List String :=
  match (SafeExecWithThreeResults stack fn).2.2.2 with
  | some e =>
    (match handler e with
     | .ret _ =>
       .ret ((SafeExecWithThreeResults stack fn).1,
         (SafeExecWithThreeResults stack fn).2.1,
         (SafeExecWithThreeResults stack fn).2.2.1)
     | .panic r => .panic r, [e])
  | none =>
    (.ret ((SafeExecWithThreeResults stack fn).1,
      (SafeExecWithThreeResults stack fn).2.1,
      (SafeExecWithThreeResults stack fn).2.2.1), [])

/-- C2: `SafeExec(fn)` never terminates abnormally itself: for every
computation `fn` and every captured stack, its outcome is a normal return
of the error value `SafeExec` yields — the intercepted fault is never
re-raised past the wrapper boundary. -/
theorem C2_no_abnormal_exit (stack : String) (fn : Exec Err) :
    SafeExecE stack fn = Exec.ret (SafeExec stack fn) := by
  cases fn <;> rfl

/-- C3: on a normal return of the computation, every arity wrapper passes
all typed values and the error through unchanged, whether the error is nil
or not; `SafeExec` likewise returns the computation's error unchanged. -/
theorem C3_normal_passthrough (T1 T2 T3 : Type)
    [Inhabited T1] [Inhabited T2] [Inhabited T3]
    (stack : String) (e : Err) (v1 : T1) (v2 : T2) (v3 : T3) :
    SafeExec stack (Exec.ret e) = e ∧
    SafeExecWithResult stack (Exec.ret (v1, e)) = (v1, e) ∧
    SafeExecWithTwoResults stack (Exec.ret (v1, v2, e)) = (v1, v2, e) ∧
    SafeExecWithThreeResults stack (Exec.ret (v1, v2, v3, e)) = (v1, v2, v3, e) :=
  ⟨rfl, rfl, rfl, rfl⟩

/-- C7: `Validate(true, tmpl, args...)` returns nil for every template and
argument list; the template is never formatted on the true branch. -/
theorem C7_validate_true (format : String) (args : List GoVal) :
    Validate true format args = none := rfl

/-- C10: the deferred handler in `SafeExec` tests the recovered value
against nil before overwriting the error, so a fault whose recovered
payload is nil leaves the returned error nil: `SafeExec` and every arity
wrapper built on it return zero-valued results and a nil error, silently
swallowing that fault. -/
theorem C10_nil_payload_swallowed (T1 T2 T3 : Type)
    [Inhabited T1] [Inhabited T2] [Inhabited T3] (stack : String) :
    SafeExec stack (Exec.panic GoAny.nil) = none ∧
    SafeExecWithNoResult stack (Exec.panic GoAny.nil) = none ∧
    SafeExecWithResult stack (Exec.panic GoAny.nil : Exec (T1 × Err)) =
      (default, none) ∧
    SafeExecWithTwoResults stack (Exec.panic GoAny.nil : Exec (T1 × T2 × Err)) =
      (default, default, none) ∧
    SafeExecWithThreeResults stack
        (Exec.panic GoAny.nil : Exec (T1 × T2 × T3 × Err)) =
      (default, default, default, none) := by
  refine ⟨?_, ?_, ?_, ?_, ?_⟩ <;>
    simp [SafeExec, SafeExecE, SafeExecWithNoResult, SafeExecWithResult,
      SafeExecWithTwoResults, SafeExecWithThreeResults, innerNoResult,
      innerWithResult, innerWithTwoResults, innerWithThreeResults, Exec.retD]

/-- C4: evaluation of `Validate` at the failing input: because the
formatted text is passed to `fmt.Errorf` as a format string again,
`Validate(false, "%s", "%d")` yields the error text `"%!d(MISSING)"`
instead of the single-pass formatting result `"%d"` the claim demands. -/
theorem C4_double_format :
    Validate false "%s" [GoVal.str "%d"] = some "%!d(MISSING)" ∧
    sprintf "%s" [GoVal.str "%d"] = "%d" ∧
    Validate false "%s" [GoVal.str "%d"] ≠ some (sprintf "%s" [GoVal.str "%d"]) := by
  refine ⟨rfl, rfl, ?_⟩
  decide

/-- C1 counterexample: a computation that panics with a nil payload is a
panic for which `SafeExec` returns a nil error rather than the non-nil
`"panic occurred: ..."` error the claim demands for every panic. -/
theorem C1_counterexample :
    SafeExec "st" (Exec.panic GoAny.nil) = none ∧
    SafeExecWithResult "st" (Exec.panic GoAny.nil : Exec (Nat × Err)) = (0, none) := by
  exact ⟨rfl, rfl⟩

/-- C1 (amended): for every computation that panics with a non-nil payload
`P`, `SafeExec` and every arity wrapper return the zero/default value in
every typed result slot and a non-nil error whose message is exactly
`"panic occurred: "` followed by the textual form of `P`, a newline,
`"Stack trace:"`, a newline, and the captured stack-trace text. -/
theorem C1_panic_error (T1 T2 T3 : Type)
    [Inhabited T1] [Inhabited T2] [Inhabited T3]
    (stack : String) (r : GoAny) (hr : r ≠ GoAny.nil) :
    SafeExec stack (Exec.panic r) =
      some ("panic occurred: " ++ r.vText ++ "\nStack trace:\n" ++ stack) ∧
    SafeExecWithNoResult stack (Exec.panic r) =
      some ("panic occurred: " ++ r.vText ++ "\nStack trace:\n" ++ stack) ∧
    SafeExecWithResult stack (Exec.panic r : Exec (T1 × Err)) =
      (default,
        some ("panic occurred: " ++ r.vText ++ "\nStack trace:\n" ++ stack)) ∧
    SafeExecWithTwoResults stack (Exec.panic r : Exec (T1 × T2 × Err)) =
      (default, default,
        some ("panic occurred: " ++ r.vText ++ "\nStack trace:\n" ++ stack)) ∧
    SafeExecWithThreeResults stack (Exec.panic r : Exec (T1 × T2 × T3 × Err)) =
      (default, default, default,
        some ("panic occurred: " ++ r.vText ++ "\nStack trace:\n" ++ stack)) := by
  refine ⟨?_, ?_, ?_, ?_, ?_⟩ <;>
    simp [SafeExec, SafeExecE, SafeExecWithNoResult, SafeExecWithResult,
      SafeExecWithTwoResults, SafeExecWithThreeResults, innerNoResult,
      innerWithResult, innerWithTwoResults, innerWithThreeResults, Exec.retD,
      panicMsg, hr]

/-- C1 witness: the amended claim at the concrete payload `"boom"` and
stack `"tr"`, with one-result slots at `Nat`. -/
theorem C1_panic_error_witness :
    SafeExec "tr" (Exec.panic (GoAny.val "boom")) =
      some ("panic occurred: " ++ "boom" ++ "\nStack trace:\n" ++ "tr") ∧
    SafeExecWithNoResult "tr" (Exec.panic (GoAny.val "boom")) =
      some ("panic occurred: " ++ "boom" ++ "\nStack trace:\n" ++ "tr") ∧
    SafeExecWithResult "tr" (Exec.panic (GoAny.val "boom") : Exec (Nat × Err)) =
      (default,
        some ("panic occurred: " ++ "boom" ++ "\nStack trace:\n" ++ "tr")) ∧
    SafeExecWithTwoResults "tr"
        (Exec.panic (GoAny.val "boom") : Exec (Nat × Nat × Err)) =
      (default, default,
        some ("panic occurred: " ++ "boom" ++ "\nStack trace:\n" ++ "tr")) ∧
    SafeExecWithThreeResults "tr"
        (Exec.panic (GoAny.val "boom") : Exec (Nat × Nat × Nat × Err)) =
      (default, default, default,
        some ("panic occurred: " ++ "boom" ++ "\nStack trace:\n" ++ "tr")) :=
  C1_panic_error Nat Nat Nat "tr" (GoAny.val "boom") (by decide)

/-- C8: wrapping a computation that does not terminate abnormally is
behaviorally transparent: `SafeExec` and each arity wrapper yield exactly
what the unwrapped computation yields on a direct call, and the result does
not depend on the captured environment (the stack snapshot), so repeated
invocation yields identical results. -/
theorem C8_transparent (T1 T2 T3 : Type)
    [Inhabited T1] [Inhabited T2] [Inhabited T3]
    (stack stack2 : String) (fnE : Exec Err) (fn0 : Exec Unit)
    (fn1 : Exec (T1 × Err)) (fn2 : Exec (T1 × T2 × Err))
    (fn3 : Exec (T1 × T2 × T3 × Err))
    (hE : fnE.panics = false) (h0 : fn0.panics = false)
    (h1 : fn1.panics = false) (h2 : fn2.panics = false)
    (h3 : fn3.panics = false) :
    SafeExec stack fnE = fnE.retD default ∧
    SafeExec stack fnE = SafeExec stack2 fnE ∧
    SafeExecWithNoResult stack fn0 = none ∧
    SafeExecWithNoResult stack fn0 = SafeExecWithNoResult stack2 fn0 ∧
    SafeExecWithResult stack fn1 = fn1.retD default ∧
    SafeExecWithResult stack fn1 = SafeExecWithResult stack2 fn1 ∧
    SafeExecWithTwoResults stack fn2 = fn2.retD default ∧
    SafeExecWithTwoResults stack fn2 = SafeExecWithTwoResults stack2 fn2 ∧
    SafeExecWithThreeResults stack fn3 = fn3.retD default ∧
    SafeExecWithThreeResults stack fn3 = SafeExecWithThreeResults stack2 fn3 := by
  cases fnE with
  | panic r => simp [Exec.panics] at hE
  | ret e =>
  cases fn0 with
  | panic r => simp [Exec.panics] at h0
  | ret u =>
  cases fn1 with
  | panic r => simp [Exec.panics] at h1
  | ret p1 =>
  cases fn2 with
  | panic r => simp [Exec.panics] at h2
  | ret p2 =>
  cases fn3 with
  | panic r => simp [Exec.panics] at h3
  | ret p3 =>
  obtain ⟨w1, e1⟩ := p1
  obtain ⟨w2a, w2b, e2⟩ := p2
  obtain ⟨w3a, w3b, w3c, e3⟩ := p3
  exact ⟨rfl, rfl, rfl, rfl, rfl, rfl, rfl, rfl, rfl, rfl⟩

/-- C8 witness: transparency at concrete non-panicking computations, two
different stack snapshots, and result types at `Nat`. -/
theorem C8_transparent_witness :
    SafeExec "s1" (Exec.ret (some "x")) = (Exec.ret (some "x")).retD default ∧
    SafeExec "s1" (Exec.ret (some "x")) = SafeExec "s2" (Exec.ret (some "x")) ∧
    SafeExecWithNoResult "s1" (Exec.ret ()) = none ∧
    SafeExecWithNoResult "s1" (Exec.ret ()) =
      SafeExecWithNoResult "s2" (Exec.ret ()) ∧
    SafeExecWithResult "s1" (Exec.ret ((1 : Nat), none)) =
      (Exec.ret ((1 : Nat), none)).retD default ∧
    SafeExecWithResult "s1" (Exec.ret ((1 : Nat), none)) =
      SafeExecWithResult "s2" (Exec.ret ((1 : Nat), none)) ∧
    SafeExecWithTwoResults "s1" (Exec.ret ((1 : Nat), (2 : Nat), some "y")) =
      (Exec.ret ((1 : Nat), (2 : Nat), some "y")).retD default ∧
    SafeExecWithTwoResults "s1" (Exec.ret ((1 : Nat), (2 : Nat), some "y")) =
      SafeExecWithTwoResults "s2" (Exec.ret ((1 : Nat), (2 : Nat), some "y")) ∧
    SafeExecWithThreeResults "s1"
        (Exec.ret ((1 : Nat), (2 : Nat), (3 : Nat), none)) =
      (Exec.ret ((1 : Nat), (2 : Nat), (3 : Nat), none)).retD default ∧
    SafeExecWithThreeResults "s1"
        (Exec.ret ((1 : Nat), (2 : Nat), (3 : Nat), none)) =
      SafeExecWithThreeResults "s2"
        (Exec.ret ((1 : Nat), (2 : Nat), (3 : Nat), none)) :=
  C8_transparent Nat Nat Nat "s1" "s2" (Exec.ret (some "x")) (Exec.ret ())
    (Exec.ret (1, none)) (Exec.ret (1, 2, some "y")) (Exec.ret (1, 2, 3, none))
    rfl rfl rfl rfl rfl

/-- C9: the handler callback is not fault-protected: in every handler
variant, if the underlying call yields a non-nil error and the handler
panics when invoked with it, the handler variant call itself terminates
abnormally with the handler's payload. -/
theorem C9_handler_unprotected (T1 T2 T3 : Type)
    [Inhabited T1] [Inhabited T2] [Inhabited T3]
    (stack : String) (h : String → Exec Unit) (r : GoAny) :
    (∀ (fnE : Exec Err) (e : String), SafeExec stack fnE = some e →
        h e = Exec.panic r →
        SafeExecWithHandler stack fnE h = (Exec.panic r, [e])) ∧
    (∀ (fn0 : Exec Unit) (e : String), SafeExecWithNoResult stack fn0 = some e →
        h e = Exec.panic r →
        SafeExecWithHandler0 stack fn0 h = (Exec.panic r, [e])) ∧
    (∀ (fn1 : Exec (T1 × Err)) (e : String),
        (SafeExecWithResult stack fn1).2 = some e → h e = Exec.panic r →
        SafeExecWithHandlerWithResult stack fn1 h = (Exec.panic r, [e])) ∧
    (∀ (fn2 : Exec (T1 × T2 × Err)) (e : String),
        (SafeExecWithTwoResults stack fn2).2.2 = some e → h e = Exec.panic r →
        SafeExecWithHandlerWithTwoResults stack fn2 h = (Exec.panic r, [e])) ∧
    (∀ (fn3 : Exec (T1 × T2 × T3 × Err)) (e : String),
        (SafeExecWithThreeResults stack fn3).2.2.2 = some e →
        h e = Exec.panic r →
        SafeExecWithHandlerWithThreeResults stack fn3 h = (Exec.panic r, [e])) := by
  refine ⟨?_, ?_, ?_, ?_, ?_⟩ <;> intro fn e he hh <;>
    simp [SafeExecWithHandler, SafeExecWithHandler0,
      SafeExecWithHandlerWithResult, SafeExecWithHandlerWithTwoResults,
      SafeExecWithHandlerWithThreeResults, he, hh]

/-- C9 witness: a computation returning the error `"e"` and a handler that
panics with payload `"hb"` make the handler-variant call itself panic. -/
theorem C9_handler_unprotected_witness :
    SafeExecWithHandler "st" (Exec.ret (some "e"))
        (fun _ => Exec.panic (GoAny.val "hb")) =
      (Exec.panic (GoAny.val "hb"), ["e"]) :=
  (C9_handler_unprotected Nat Nat Nat "st"
      (fun _ => Exec.panic (GoAny.val "hb")) (GoAny.val "hb")).1
    (Exec.ret (some "e")) "e" rfl rfl

/-- C6: in every typed handler variant, whenever the call returns normally
its returned values are exactly the values the matching arity variant
returns for the same computation, regardless of whether the callback ran —
even when the computation returns non-default values together with a
non-nil error. -/
theorem C6_results_propagated (T1 T2 T3 : Type)
    [Inhabited T1] [Inhabited T2] [Inhabited T3]
    (stack : String) (h : String → Exec Unit) :
    (∀ (fn : Exec (T1 × Err)) (v : T1),
        (SafeExecWithHandlerWithResult stack fn h).1 = Exec.ret v →
        v = (SafeExecWithResult stack fn).1) ∧
    (∀ (fn : Exec (T1 × T2 × Err)) (v : T1 × T2),
        (SafeExecWithHandlerWithTwoResults stack fn h).1 = Exec.ret v →
        v = ((SafeExecWithTwoResults stack fn).1,
          (SafeExecWithTwoResults stack fn).2.1)) ∧
    (∀ (fn : Exec (T1 × T2 × T3 × Err)) (v : T1 × T2 × T3),
        (SafeExecWithHandlerWithThreeResults stack fn h).1 = Exec.ret v →
        v = ((SafeExecWithThreeResults stack fn).1,
          (SafeExecWithThreeResults stack fn).2.1,
          (SafeExecWithThreeResults stack fn).2.2.1)) := by
  refine ⟨?_, ?_, ?_⟩
  · intro fn v hv
    rcases he : (SafeExecWithResult stack fn).2 with _ | e
    · simp [SafeExecWithHandlerWithResult, he] at hv
      exact hv.symm
    · rcases hhe : h e with u | rr
      · simp [SafeExecWithHandlerWithResult, he, hhe] at hv
        exact hv.symm
      · simp [SafeExecWithHandlerWithResult, he, hhe] at hv
  · intro fn v hv
    rcases he : (SafeExecWithTwoResults stack fn).2.2 with _ | e
    · simp [SafeExecWithHandlerWithTwoResults, he] at hv
      exact hv.symm
    · rcases hhe : h e with u | rr
      · simp [SafeExecWithHandlerWithTwoResults, he, hhe] at hv
        exact hv.symm
      · simp [SafeExecWithHandlerWithTwoResults, he, hhe] at hv
  · intro fn v hv
    rcases he : (SafeExecWithThreeResults stack fn).2.2.2 with _ | e
    · simp [SafeExecWithHandlerWithThreeResults, he] at hv
      exact hv.symm
    · rcases hhe : h e with u | rr
      · simp [SafeExecWithHandlerWithThreeResults, he, hhe] at hv
        exact hv.symm
      · simp [SafeExecWithHandlerWithThreeResults, he, hhe] at hv

/-- C6 witness: a computation that returns the non-default value `7`
together with a non-nil error still has `7` propagated by the handler
variant. -/
theorem C6_results_propagated_witness :
    (7 : Nat) = (SafeExecWithResult "st" (Exec.ret ((7 : Nat), some "boom"))).1 :=
  (C6_results_propagated Nat Nat Nat "st" (fun _ => Exec.ret ())).1
    (Exec.ret (7, some "boom")) 7 rfl

/-- C5 counterexample: the computation returns `(5, error "e")` normally;
the handler is invoked exactly once with `"e"`, but the wrapper returns the
value `5`, not the default value the claim demands for the error case. -/
theorem C5_counterexample :
    SafeExecWithHandlerWithResult "st" (Exec.ret ((5 : Nat), some "e"))
        (fun _ => Exec.ret ()) = (Exec.ret 5, ["e"]) ∧
    (5 : Nat) ≠ (default : Nat) :=
  ⟨rfl, by decide⟩

/-- C5 (amended): for every handler variant, if the underlying arity call
yields a non-nil error, the handler callback is invoked exactly once with
that error and (when the callback returns normally) the wrapper returns the
typed results produced by the underlying arity call — default-valued when
the error arose from a panic, but the computation's own values when it
returned them alongside a non-nil error; if the error is nil, the handler
is never invoked and the true results are returned. -/
theorem C5_handler_invocation (T1 T2 T3 : Type)
    [Inhabited T1] [Inhabited T2] [Inhabited T3]
    (stack : String) (h : String → Exec Unit) :
    (∀ (fnE : Exec Err) (e : String), SafeExec stack fnE = some e →
        SafeExecWithHandler stack fnE h = (h e, [e])) ∧
    (∀ fnE : Exec Err, SafeExec stack fnE = none →
        SafeExecWithHandler stack fnE h = (Exec.ret (), [])) ∧
    (∀ (fn0 : Exec Unit) (e : String), SafeExecWithNoResult stack fn0 = some e →
        SafeExecWithHandler0 stack fn0 h = (h e, [e])) ∧
    (∀ fn0 : Exec Unit, SafeExecWithNoResult stack fn0 = none →
        SafeExecWithHandler0 stack fn0 h = (Exec.ret (), [])) ∧
    (∀ (fn1 : Exec (T1 × Err)) (e : String),
        (SafeExecWithResult stack fn1).2 = some e →
        (SafeExecWithHandlerWithResult stack fn1 h).2 = [e] ∧
        (h e = Exec.ret () →
          (SafeExecWithHandlerWithResult stack fn1 h).1 =
            Exec.ret (SafeExecWithResult stack fn1).1)) ∧
    (∀ fn1 : Exec (T1 × Err), (SafeExecWithResult stack fn1).2 = none →
        SafeExecWithHandlerWithResult stack fn1 h =
          (Exec.ret (SafeExecWithResult stack fn1).1, [])) ∧
    (∀ (fn2 : Exec (T1 × T2 × Err)) (e : String),
        (SafeExecWithTwoResults stack fn2).2.2 = some e →
        (SafeExecWithHandlerWithTwoResults stack fn2 h).2 = [e] ∧
        (h e = Exec.ret () →
          (SafeExecWithHandlerWithTwoResults stack fn2 h).1 =
            Exec.ret ((SafeExecWithTwoResults stack fn2).1,
              (SafeExecWithTwoResults stack fn2).2.1))) ∧
    (∀ fn2 : Exec (T1 × T2 × Err), (SafeExecWithTwoResults stack fn2).2.2 = none →
        SafeExecWithHandlerWithTwoResults stack fn2 h =
          (Exec.ret ((SafeExecWithTwoResults stack fn2).1,
            (SafeExecWithTwoResults stack fn2).2.1), [])) ∧
    (∀ (fn3 : Exec (T1 × T2 × T3 × Err)) (e : String),
        (SafeExecWithThreeResults stack fn3).2.2.2 = some e →
        (SafeExecWithHandlerWithThreeResults stack fn3 h).2 = [e] ∧
        (h e = Exec.ret () →
          (SafeExecWithHandlerWithThreeResults stack fn3 h).1 =
            Exec.ret ((SafeExecWithThreeResults stack fn3).1,
              (SafeExecWithThreeResults stack fn3).2.1,
              (SafeExecWithThreeResults stack fn3).2.2.1))) ∧
    (∀ fn3 : Exec (T1 × T2 × T3 × Err),
        (SafeExecWithThreeResults stack fn3).2.2.2 = none →
        SafeExecWithHandlerWithThreeResults stack fn3 h =
          (Exec.ret ((SafeExecWithThreeResults stack fn3).1,
            (SafeExecWithThreeResults stack fn3).2.1,
            (SafeExecWithThreeResults stack fn3).2.2.1), [])) := by
  refine ⟨?_, ?_, ?_, ?_, ?_, ?_, ?_, ?_, ?_, ?_⟩
  · intro fnE e he
    simp [SafeExecWithHandler, he]
  · intro fnE he
    simp [SafeExecWithHandler, he]
  · intro fn0 e he
    simp [SafeExecWithHandler0, he]
  · intro fn0 he
    simp [SafeExecWithHandler0, he]
  · intro fn1 e he
    refine ⟨?_, ?_⟩
    · simp [SafeExecWithHandlerWithResult, he]
    · intro hre
      simp [SafeExecWithHandlerWithResult, he, hre]
  · intro fn1 he
    simp [SafeExecWithHandlerWithResult, he]
  · intro fn2 e he
    refine ⟨?_, ?_⟩
    · simp [SafeExecWithHandlerWithTwoResults, he]
    · intro hre
      simp [SafeExecWithHandlerWithTwoResults, he, hre]
  · intro fn2 he
    simp [SafeExecWithHandlerWithTwoResults, he]
  · intro fn3 e he
    refine ⟨?_, ?_⟩
    · simp [SafeExecWithHandlerWithThreeResults, he]
    · intro hre
      simp [SafeExecWithHandlerWithThreeResults, he, hre]
  · intro fn3 he
    simp [SafeExecWithHandlerWithThreeResults, he]

/-- C5 witness: the amended claim at concrete inputs — a computation
returning the error `"boom"` has the handler called exactly once with
`"boom"`, a computation returning nil error calls no handler, and the
typed variant records exactly one handler invocation. -/
theorem C5_handler_invocation_witness :
    SafeExecWithHandler "st" (Exec.ret (some "boom")) (fun _ => Exec.ret ()) =
      (Exec.ret (), ["boom"]) ∧
    SafeExecWithHandler "st" (Exec.ret (none : Err)) (fun _ => Exec.ret ()) =
      (Exec.ret (), []) ∧
    (SafeExecWithHandlerWithResult "st" (Exec.ret ((7 : Nat), some "boom"))
        (fun _ => Exec.ret ())).2 = ["boom"] :=
  ⟨(C5_handler_invocation Nat Nat Nat "st" (fun _ => Exec.ret ())).1
      (Exec.ret (some "boom")) "boom" rfl,
    (C5_handler_invocation Nat Nat Nat "st" (fun _ => Exec.ret ())).2.1
      (Exec.ret (none : Err)) rfl,
    ((C5_handler_invocation Nat Nat Nat "st" (fun _ => Exec.ret ())).2.2.2.2.1
      (Exec.ret (7, some "boom")) "boom" rfl).1⟩

end Errorkit
